import Mathlib

/-!
Verification of the quad-batch geometry builder and render-target pipeline
of the paperboard/example repository (Go, OpenGL tutorial variants).

The embedding translates the Go sources:
  * src/gles20-cube/test20-framebuffer-multisample/quad.go  (primary variant)
  * src/gl32-cube/test21-framebuffer/quad.go
  * src/gl32-cube/test21-framebuffer-multisample/quad.go

Conventions of the shallow embedding:
  * Go `uint16` arithmetic is modeled on `Nat` with explicit `% 65536`
    (Go conversions of negative `int` values to `uint16` keep the low 16
    bits, which is `Int.emod _ 65536`).
  * Go `float32` position/size values are modeled as Lean `Float`; every
    claim about the position stream only inspects its length, never the
    stored values.
  * The glfw content-scale factors (Go `float32`, always nonnegative) are
    modeled as rationals; the Go conversion `int32(f)` truncates toward
    zero, which for nonnegative values is the floor.
  * Go slices are Lean lists; `append` is `++`.
-/

/-! ### Constants (quad.go, const block) -/

def bytesFloat32 : Nat := 4
def bytesUint16 : Nat := 2
def bytesUint8 : Nat := 1
def vertexPositionSize : Nat := 3
def vertexTexCoordSize : Nat := 2
def vertexColorSize : Nat := 4
def verticesPerQuad : Nat := 4
def indicesPerQuad : Nat := 6
def windowWidth : Int := 600
def windowHeight : Int := 400

/-! ### Data model -/

/-- image/color.NRGBA: four uint8 components. -/
structure NRGBA where
  R : Nat
  G : Nat
  B : Nat
  A : Nat
  deriving DecidableEq

/-- ElementQuads holds the accumulated draw-element streams
(gles20-cube/test20-framebuffer-multisample/quad.go). -/
structure ElementQuads where
  QuadVertices : List Float
  QuadTexCoords : List Nat
  QuadIndices : List Nat
  OffsetVertices : Nat
  OffsetTexCoords : Nat
  OffsetIndices : Nat
  BytesTotal : Nat
  QuadColors : List Nat
  OffsetColors : Nat

/-! ### Quad batch builder (quad.go lines 214-272) -/

/-- makeQuadVertices: 4 vertices, 3 float32 scalars each, winding
v0 = top-right, v1 = top-left, v2 = bottom-left, v3 = bottom-right. -/
def makeQuadVertices (w h z : Float) : List Float :=
  [w * 0.5, h * 0.5, z,
   -(w * 0.5), h * 0.5, z,
   -(w * 0.5), -(h * 0.5), z,
   w * 0.5, -(h * 0.5), z]

/-- makeQuadTextureCoord: fixed unit mapping, 2 uint8 scalars per vertex. -/
def makeQuadTextureCoord : List Nat :=
  [1, 1, 0, 1, 0, 0, 1, 0]

/-- makeQuadColors: one RGBA value replicated across the 4 vertices. -/
def makeQuadColors (clr : NRGBA) : List Nat :=
  [clr.R, clr.G, clr.B, clr.A,
   clr.R, clr.G, clr.B, clr.A,
   clr.R, clr.G, clr.B, clr.A,
   clr.R, clr.G, clr.B, clr.A]

/-- makeQuadIndices (quad.go lines 253-260):
`rectangleCount := quadVerticesLen / (verticesPerQuad * vertexPositionSize)`
(Go int division; the argument is a slice length, hence nonnegative),
`i := uint16(rectangleCount - 1) * verticesPerQuad` (the subtraction happens
in Go `int` and the conversion to `uint16` keeps the low 16 bits, then the
multiplication and the later additions wrap in `uint16`). -/
def makeQuadIndices (quadVerticesLen : Nat) : List Nat :=
  let rectangleCount : Nat := quadVerticesLen / (verticesPerQuad * vertexPositionSize)
  let i : Nat := ((((rectangleCount : Int) - 1) % 65536).toNat * verticesPerQuad) % 65536
  [i, (i + 1) % 65536, (i + 2) % 65536,
   i, (i + 2) % 65536, (i + 3) % 65536]

/-- ElementQuads.DrawRectangle (quad.go lines 267-272): appends the four
parallel streams; the indices are generated from the position-stream length
taken after this quad's 12 position scalars were appended. -/
def ElementQuads.DrawRectangle (q : ElementQuads) (w h z : Float) (clr : NRGBA) :
    ElementQuads :=
  let v := q.QuadVertices ++ makeQuadVertices w h z
  { q with
    QuadVertices := v
    QuadTexCoords := q.QuadTexCoords ++ makeQuadTextureCoord
    QuadColors := q.QuadColors ++ makeQuadColors clr
    QuadIndices := q.QuadIndices ++ makeQuadIndices v.length }

/-- First line of ElementQuads.DebugPrint (quad.go line 263): the rectangle
count reported is `len(q.QuadIndices) / indicesPerQuad` (the surrounding
Printf noise is omitted; the reported text is `Rectangles: <count>`). -/
def ElementQuads.DebugPrintRectLine (q : ElementQuads) : String :=
  "Rectangles: " ++ toString (q.QuadIndices.length / indicesPerQuad)

/-- The fresh ElementQuads literal built at the start of
ContextFramebufferMultisample.load (quad.go lines 309-319). -/
def freshQuads : ElementQuads :=
  { QuadVertices := []
    QuadTexCoords := []
    QuadIndices := []
    OffsetVertices := 0
    OffsetTexCoords := 0
    OffsetIndices := 0
    BytesTotal := 0
    QuadColors := []
    OffsetColors := 0 }

/-- ContextFramebufferMultisample.load (quad.go lines 306-330): fresh batch,
then a 2x2 quad at depth -1.2 colored NRGBA{1,0,0,1} and a 1x1 quad at depth
-1.1 colored NRGBA{0,0,255,1}. -/
def ContextFramebufferMultisample.load : ElementQuads :=
  let q := freshQuads
  let q := q.DrawRectangle 2 2 (-1.2) ⟨1, 0, 0, 1⟩
  let q := q.DrawRectangle 1 1 (-1.1) ⟨0, 0, 255, 1⟩
  q

/-- The arguments of one DrawRectangle call, used to reason about arbitrary
sequences of appends. -/
structure QuadSpec where
  w : Float
  h : Float
  z : Float
  clr : NRGBA

/-- A sequence of DrawRectangle calls against a batch. -/
def appendQuads (q : ElementQuads) (qs : List QuadSpec) : ElementQuads :=
  qs.foldl (fun acc s => acc.DrawRectangle s.w s.h s.z s.clr) q

/-- Closed form for the six indices emitted for the quad at position k
(0-based) in a batch: base `4*k` reduced mod 2^16 by the uint16 conversion. -/
def quadIndicesAt (k : Nat) : List Nat :=
  let b := (4 * k) % 65536
  [b, b + 1, b + 2, b, b + 2, b + 3]

/-- Shape invariant of a batch holding n quads. -/
def batchShape (q : ElementQuads) (n : Nat) : Prop :=
  q.QuadVertices.length = 12 * n ∧
  q.QuadTexCoords.length = 8 * n ∧
  q.QuadColors.length = 16 * n ∧
  q.QuadIndices = ((List.range n).map quadIndicesAt).flatten

/-- A concrete two-quad call sequence (the one made by load), used by
witnesses. -/
def demoQuadList : List QuadSpec :=
  [⟨2, 2, -1.2, ⟨1, 0, 0, 1⟩⟩, ⟨1, 1, -1.1, ⟨0, 0, 255, 1⟩⟩]

/-- A single concrete DrawRectangle argument tuple, used to build long call
sequences in counterexamples. -/
def demoSpec : QuadSpec := ⟨2, 2, -1.2, ⟨1, 0, 0, 1⟩⟩

/-- The six index entries emitted for the quad at position k of a batch:
entries `6*k ..< 6*(k+1)` of the accumulated index stream. -/
def indexWindow (q : ElementQuads) (k : Nat) : List Nat :=
  (q.QuadIndices.drop (indicesPerQuad * k)).take indicesPerQuad

/-- The running vertex count before the quad at position k is appended,
derived from the accumulated position-stream length. -/
def vertexCountBefore (qs : List QuadSpec) (k : Nat) : Nat :=
  (appendQuads freshQuads (qs.take k)).QuadVertices.length / vertexPositionSize

/-! ### Packed buffer layout
(ContextFramebufferMultisample.setupBuffers, quad.go lines 566-580) -/

/-- The layout-relevant assignments of
ContextFramebufferMultisample.setupBuffers: total byte size and the four
offsets, assigned in declaration order, each the running total of the prior
streams' byte lengths. The surrounding GL buffer calls are external
collaborators and carry no state of their own. -/
def ContextFramebufferMultisample.setupBuffers (q0 : ElementQuads) : ElementQuads :=
  let q1 := { q0 with BytesTotal :=
    q0.QuadVertices.length * bytesFloat32 + q0.QuadTexCoords.length * bytesUint8 +
      q0.QuadColors.length * bytesUint8 }
  let q2 := { q1 with OffsetVertices := 0 * bytesFloat32 }
  let q3 := { q2 with OffsetTexCoords := q2.OffsetVertices + q2.QuadVertices.length * bytesFloat32 }
  let q4 := { q3 with OffsetColors := q3.OffsetTexCoords + q3.QuadTexCoords.length * bytesUint8 }
  { q4 with OffsetIndices := 0 * bytesUint16 }

/-! ### Per-frame color randomization
(ContextFramebufferMultisample.draw, quad.go lines 427-433) -/

/-- RandomColorInRGBA (quad.go lines 458-465): three draws of
`rand.Intn(0xff)` (values in `[0, 255)`) and alpha fixed to 1. The random
source is modeled as an oracle supplying the three draws of each call. -/
def RandomColorInRGBA (r g b : Nat) : NRGBA :=
  ⟨r % 255, g % 255, b % 255, 1⟩

/-- The color-randomizing portion of ContextFramebufferMultisample.draw
(quad.go lines 427-433): `nQuads := len(QuadIndices)/indicesPerQuad`, the
QuadColors slice is reset to empty and rebuilt by appending one
makeQuadColors block per quad with a fresh random color. All other fields
are read, never written, by the per-frame draw. -/
def ElementQuads.drawColorPass (q : ElementQuads) (rand : Nat → Nat × Nat × Nat) :
    ElementQuads :=
  let nQuads := q.QuadIndices.length / indicesPerQuad
  let colors := (List.range nQuads).foldl
    (fun acc i => acc ++ makeQuadColors (RandomColorInRGBA (rand i).1 (rand i).2.1 (rand i).2.2))
    []
  { q with QuadColors := colors }

/-- A concrete random oracle used by counterexamples: every call draws
(7, 8, 9). -/
def constRandOracle : Nat → Nat × Nat × Nat := fun _ => (7, 8, 9)

/-! ### Render-target binds and their clear calls -/

/-- GL capabilities toggled by the bind functions. -/
inductive GLCap where
  | depthTest
  | multisampleExt
  deriving DecidableEq

/-- The GL state-changing calls issued by the bind functions, at the
granularity the claims need. `bindFramebuffer slot fbo` records the target
slot (0 = FRAMEBUFFER, 1 = READ_FRAMEBUFFER, 2 = DRAW_FRAMEBUFFER). -/
inductive GLCmd where
  | bindFramebuffer (slot : Nat) (fbo : Nat)
  | useProgram (p : Nat)
  | clearColor (r g b a : ℚ)
  | clear (colorBit : Bool) (depthBit : Bool)
  | enable (c : GLCap)
  | disable (c : GLCap)
  deriving DecidableEq

/-- ContextFramebufferMultisample.bind
(gles20-cube/test20-framebuffer-multisample/quad.go lines 353-373). -/
def ContextFramebufferMultisample.bindCmds (fbo program : Nat) : List GLCmd :=
  [.bindFramebuffer 0 fbo, .bindFramebuffer 1 fbo, .bindFramebuffer 2 fbo,
   .useProgram program,
   .clearColor (1/2) (1/2) (1/2) 0,
   .clear true true,
   .enable .depthTest,
   .enable .multisampleExt]

/-- ContextScreen.bind
(gles20-cube/test20-framebuffer-multisample/quad.go lines 376-396). -/
def ContextScreen.bindCmds (program : Nat) : List GLCmd :=
  [.bindFramebuffer 0 0, .bindFramebuffer 1 0, .bindFramebuffer 2 0,
   .useProgram program,
   .clearColor 0 0 0 0,
   .clear true false,
   .disable .depthTest,
   .enable .multisampleExt]

/-- bindProxyScreen (gl32-cube/test21-framebuffer/quad.go lines 266-281):
the offscreen proxy bind of the single-sample variant. -/
def bindProxyScreenCmds (program fbo : Nat) : List GLCmd :=
  [.useProgram program,
   .bindFramebuffer 0 fbo,
   .clearColor (1/2) (1/2) (1/2) 1,
   .clear true true,
   .enable .depthTest]

/-- unbindProxyScreen (gl32-cube/test21-framebuffer/quad.go lines 284-299):
the screen bind of the single-sample variant. -/
def unbindProxyScreenCmds (program : Nat) : List GLCmd :=
  [.useProgram program,
   .bindFramebuffer 0 0,
   .clearColor 0 0 0 1,
   .clear true false,
   .disable .depthTest]

/-- ContextFramebuffer.bind of gl32-cube/test21-framebuffer-multisample
(quad.go lines 329-344 of that file). -/
def Gl32ContextFramebuffer.bindCmds (program fbo : Nat) : List GLCmd :=
  [.useProgram program,
   .bindFramebuffer 0 fbo,
   .clearColor (1/2) (1/2) (1/2) 1,
   .clear true true,
   .enable .depthTest]

/-- ContextScreen.bind of gl32-cube/test21-framebuffer-multisample
(quad.go lines 347-362 of that file). -/
def Gl32ContextScreen.bindCmds (program : Nat) : List GLCmd :=
  [.useProgram program,
   .bindFramebuffer 0 0,
   .clearColor 0 0 0 1,
   .clear true false,
   .disable .depthTest]

/-- The alpha components of the ClearColor calls of a command list, in
order. -/
def clearAlphas : List GLCmd → List ℚ
  | [] => []
  | GLCmd.clearColor _ _ _ a :: rest => a :: clearAlphas rest
  | _ :: rest => clearAlphas rest

/-! ### Per-frame pipeline stage order -/

/-- The stages a frame of the draw loop can execute. -/
inductive GLStage where
  | bindOffscreen
  | drawOffscreen
  | bindResolve
  | blitResolve
  | bindScreen
  | drawScreen
  deriving DecidableEq

/-- draw() of gles20-cube/test20-framebuffer-multisample (quad.go lines
332-350): offscreen bind+draw, then the blit (ctxBlitz bind + blit), then
screen bind+draw; the function body is straight-line with no branch. -/
def drawFrameTest20Multisample : List GLStage :=
  [.bindOffscreen, .drawOffscreen, .bindResolve, .blitResolve, .bindScreen, .drawScreen]

/-- draw() of gl32-cube/test21-framebuffer (quad.go lines 223-263 of that
file): bindProxyScreen, the element draw, unbindProxyScreen (the screen
bind); renderProxyToScreen has an empty body, so no screen draw and no blit
occur. -/
def drawFrameTest21Framebuffer : List GLStage :=
  [.bindOffscreen, .drawOffscreen, .bindScreen]

/-- draw() of gl32-cube/test21-framebuffer-multisample (quad.go lines
312-326 of that file): offscreen bind+draw then screen bind+draw; no blit
call exists in that variant. -/
def drawFrameTest21FramebufferMultisample : List GLStage :=
  [.bindOffscreen, .drawOffscreen, .bindScreen, .drawScreen]

/-- The stage trace of n iterations of the game loop: each iteration calls
the variant's draw() exactly once (main's loop body, quad.go lines
161-175). -/
def gameLoopTrace (frame : List GLStage) (n : Nat) : List GLStage :=
  (List.replicate n frame).flatten

/-! ### Offscreen attachment dimensions -/

/-- The Go conversion `int32(f)` applied to a glfw content-scale factor
(a nonnegative float32, modeled as a rational): truncation toward zero,
which for nonnegative values is the floor. -/
def int32OfScale (s : ℚ) : Int := ⌊s⌋

/-- The width/height passed to gl.TexImage2D by ContextFramebuffer
.attachTexture (gles20 quad.go line 630): `windowWidth*int32(dpiScaleX)`
by `windowHeight*int32(dpiScaleY)`. -/
def ContextFramebuffer.attachTextureDims (sx sy : ℚ) : Int × Int :=
  (windowWidth * int32OfScale sx, windowHeight * int32OfScale sy)

/-- The width/height passed to gl.RenderbufferStorageMultisampleEXT by
ContextFramebufferMultisample.attachRenderbufferMultisample (gles20 quad.go
line 682): the same `window * int32(scale)` products. -/
def ContextFramebufferMultisample.attachRenderbufferMultisampleDims (sx sy : ℚ) : Int × Int :=
  (windowWidth * int32OfScale sx, windowHeight * int32OfScale sy)

/-- Stated from the spec sentence, for comparison with the code-derived
dimension functions: attachment dimensions as the exact products `(W*sx,
H*sy)` with floor truncation applied to each product. -/
def specAttachmentDims (w h : Int) (sx sy : ℚ) : Int × Int :=
  (⌊(w : ℚ) * sx⌋, ⌊(h : ℚ) * sy⌋)

/-! ### Helper lemmas -/

lemma makeQuadIndices_closed (n : Nat) : makeQuadIndices (12 * (n + 1)) = quadIndicesAt n := by
  simp only [makeQuadIndices, quadIndicesAt, verticesPerQuad, vertexPositionSize]
  have hrc : 12 * (n + 1) / (4 * 3) = n + 1 := by omega
  rw [hrc]
  simp only [List.cons.injEq, and_true]
  omega

lemma flatten_range_succ (n : Nat) :
    ((List.range (n + 1)).map quadIndicesAt).flatten =
      ((List.range n).map quadIndicesAt).flatten ++ quadIndicesAt n := by
  rw [List.range_succ, List.map_append, List.flatten_append]
  simp

lemma batchShape_DrawRectangle {q : ElementQuads} {n : Nat} {w h z : Float} {clr : NRGBA}
    (hq : batchShape q n) : batchShape (q.DrawRectangle w h z clr) (n + 1) := by
  obtain ⟨hv, ht, hc, hi⟩ := hq
  have hlen : (q.QuadVertices ++ makeQuadVertices w h z).length = 12 * (n + 1) := by
    rw [List.length_append, hv]
    have h12 : (makeQuadVertices w h z).length = 12 := rfl
    rw [h12]
    omega
  refine ⟨?_, ?_, ?_, ?_⟩
  · exact hlen
  · show (q.QuadTexCoords ++ makeQuadTextureCoord).length = 8 * (n + 1)
    rw [List.length_append, ht]
    have h8 : makeQuadTextureCoord.length = 8 := rfl
    rw [h8]
    omega
  · show (q.QuadColors ++ makeQuadColors clr).length = 16 * (n + 1)
    rw [List.length_append, hc]
    have h16 : (makeQuadColors clr).length = 16 := rfl
    rw [h16]
    omega
  · show q.QuadIndices ++ makeQuadIndices (q.QuadVertices ++ makeQuadVertices w h z).length =
      ((List.range (n + 1)).map quadIndicesAt).flatten
    rw [hlen, makeQuadIndices_closed, hi, flatten_range_succ]

lemma batchShape_appendQuads :
    ∀ (qs : List QuadSpec) (q : ElementQuads) (n : Nat),
      batchShape q n → batchShape (appendQuads q qs) (n + qs.length)
  | [], q, n, hq => by simpa [appendQuads] using hq
  | s :: qs, q, n, hq => by
    have h1 : batchShape (q.DrawRectangle s.w s.h s.z s.clr) (n + 1) :=
      batchShape_DrawRectangle hq
    have h2 := batchShape_appendQuads qs (q.DrawRectangle s.w s.h s.z s.clr) (n + 1) h1
    simp only [appendQuads, List.foldl_cons] at h2 ⊢
    have heq : n + (qs.length + 1) = n + 1 + qs.length := by omega
    rw [List.length_cons, heq]
    exact h2

lemma batchShape_of_appends (qs : List QuadSpec) :
    batchShape (appendQuads freshQuads qs) qs.length := by
  have h0 : batchShape freshQuads 0 := by
    refine ⟨rfl, rfl, rfl, ?_⟩
    simp [freshQuads]
  simpa using batchShape_appendQuads qs freshQuads 0 h0

lemma length_flatten_quadIndicesAt :
    ∀ n : Nat, (((List.range n).map quadIndicesAt).flatten).length = 6 * n
  | 0 => rfl
  | n + 1 => by
    rw [flatten_range_succ, List.length_append, length_flatten_quadIndicesAt n]
    have : (quadIndicesAt n).length = 6 := rfl
    rw [this]
    omega

lemma flatten_blocks_extract {α : Type} (b : Nat) :
    ∀ (L : List (List α)) (k : Nat), (∀ x ∈ L, x.length = b) → k < L.length →
      (L.flatten.drop (b * k)).take b = L.getD k []
  | [], k, _, hk => by simp at hk
  | x :: L, 0, hlen, _ => by
    have hx : x.length = b := hlen x (by simp)
    simp only [List.flatten_cons, Nat.mul_zero, List.drop_zero, List.getD_cons_zero]
    rw [← hx, List.take_left]
  | x :: L, k + 1, hlen, hk => by
    have hx : x.length = b := hlen x (by simp)
    have hrec := flatten_blocks_extract b L k (fun y hy => hlen y (by simp [hy]))
      (by simpa using hk)
    simp only [List.flatten_cons, List.getD_cons_succ]
    have harith : b * (k + 1) = x.length + b * k := by rw [hx]; ring
    rw [harith, List.drop_append]
    exact hrec

lemma indexWindow_eq (qs : List QuadSpec) (k : Nat) (hk : k < qs.length) :
    indexWindow (appendQuads freshQuads qs) k = quadIndicesAt k := by
  obtain ⟨-, -, -, hi⟩ := batchShape_of_appends qs
  unfold indexWindow
  simp only [indicesPerQuad]
  rw [hi]
  have hblocks : ∀ x ∈ (List.range qs.length).map quadIndicesAt, x.length = 6 := by
    intro x hx
    simp only [List.mem_map] at hx
    obtain ⟨j, -, rfl⟩ := hx
    rfl
  have hklen : k < ((List.range qs.length).map quadIndicesAt).length := by simpa using hk
  rw [flatten_blocks_extract 6 ((List.range qs.length).map quadIndicesAt) k hblocks hklen]
  simp [List.getD_eq_getElem?_getD, List.getElem?_map, List.getElem?_range, hk]

lemma vertexCountBefore_eq (qs : List QuadSpec) (k : Nat) (hk : k ≤ qs.length) :
    vertexCountBefore qs k = 4 * k := by
  obtain ⟨hv, -, -, -⟩ := batchShape_of_appends (qs.take k)
  unfold vertexCountBefore
  rw [hv]
  have hlen : (qs.take k).length = k := by
    simp [List.length_take]
    omega
  rw [hlen]
  simp only [vertexPositionSize]
  omega

lemma foldr_max_shift : ∀ (l : List Nat) (i : Nat), l.foldr max i = max (l.foldr max 0) i
  | [], i => by simp
  | a :: t, i => by
    simp only [List.foldr_cons]
    rw [foldr_max_shift t i]
    omega

lemma foldr_max_append (l₁ l₂ : List Nat) :
    (l₁ ++ l₂).foldr max 0 = max (l₁.foldr max 0) (l₂.foldr max 0) := by
  rw [List.foldr_append, foldr_max_shift l₁ (l₂.foldr max 0)]

lemma quadIndicesAt_foldr_max (k : Nat) (hk : k < 16384) :
    (quadIndicesAt k).foldr max 0 = 4 * k + 3 := by
  simp only [quadIndicesAt, List.foldr_cons, List.foldr_nil]
  omega

lemma maxIdx_range : ∀ n : Nat, 1 ≤ n → n ≤ 16384 →
    (((List.range n).map quadIndicesAt).flatten).foldr max 0 = 4 * n - 1
  | 0, h, _ => by omega
  | 1, _, _ => by decide
  | n + 2, _, h2 => by
    rw [flatten_range_succ, foldr_max_append, maxIdx_range (n + 1) (by omega) (by omega),
      quadIndicesAt_foldr_max (n + 1) (by omega)]
    omega

lemma count_gameLoopTrace (frame : List GLStage) (s : GLStage) :
    ∀ n : Nat, (gameLoopTrace frame n).count s = n * frame.count s
  | 0 => by simp [gameLoopTrace]
  | n + 1 => by
    unfold gameLoopTrace
    rw [List.replicate_succ, List.flatten_cons, List.count_append]
    have hrec := count_gameLoopTrace frame s n
    unfold gameLoopTrace at hrec
    rw [hrec]
    ring

lemma foldl_append_blocks_length {α : Type} (g : Nat → List α) (b : Nat)
    (hg : ∀ i, (g i).length = b) :
    ∀ (n : Nat) (acc : List α),
      ((List.range n).foldl (fun acc i => acc ++ g i) acc).length = acc.length + b * n
  | 0, acc => by simp
  | n + 1, acc => by
    rw [List.range_succ, List.foldl_append]
    simp only [List.foldl_cons, List.foldl_nil]
    rw [List.length_append, foldl_append_blocks_length g b hg n acc, hg n]
    ring

/-! ### Claim theorems -/

/-- C2: for every sequence of N DrawRectangle calls on a fresh batch, the
index stream has length 6N, the position stream 12N scalars, the
texture-coordinate stream 8N, and the color stream 16N. -/
theorem C2_stream_lengths (qs : List QuadSpec) :
    (appendQuads freshQuads qs).QuadIndices.length = 6 * qs.length ∧
    (appendQuads freshQuads qs).QuadVertices.length = 12 * qs.length ∧
    (appendQuads freshQuads qs).QuadTexCoords.length = 8 * qs.length ∧
    (appendQuads freshQuads qs).QuadColors.length = 16 * qs.length := by
  obtain ⟨hv, ht, hc, hi⟩ := batchShape_of_appends qs
  refine ⟨?_, hv, ht, hc⟩
  rw [hi, length_flatten_quadIndicesAt]

/-- C1 (amended): for every quad at position k of a batch built by
DrawRectangle calls, the six emitted indices are exactly
(baseIndex + 0,1,2,0,2,3) reduced mod 2^16 by the uint16 conversion, where
baseIndex is derived from the accumulated position-stream length: the
running vertex count before the quad's 4 new vertices were appended. For
quads with fewer than 16384 predecessors the reduction is vacuous and the
indices are exactly baseIndex + 0,1,2,0,2,3. -/
theorem C1_emitted_indices (qs : List QuadSpec) (k : Nat) (hk : k < qs.length) :
    indexWindow (appendQuads freshQuads qs) k =
      [vertexCountBefore qs k % 65536, (vertexCountBefore qs k + 1) % 65536,
       (vertexCountBefore qs k + 2) % 65536, vertexCountBefore qs k % 65536,
       (vertexCountBefore qs k + 2) % 65536, (vertexCountBefore qs k + 3) % 65536] := by
  rw [indexWindow_eq qs k hk, vertexCountBefore_eq qs k (le_of_lt hk)]
  simp only [quadIndicesAt, List.cons.injEq, and_true, true_and, eq_self_iff_true]
  omega

/-- Witness for C1 at the concrete two-quad batch of load, k = 1. -/
theorem C1_witness :
    1 < demoQuadList.length ∧
    indexWindow (appendQuads freshQuads demoQuadList) 1 =
      [vertexCountBefore demoQuadList 1 % 65536, (vertexCountBefore demoQuadList 1 + 1) % 65536,
       (vertexCountBefore demoQuadList 1 + 2) % 65536, vertexCountBefore demoQuadList 1 % 65536,
       (vertexCountBefore demoQuadList 1 + 2) % 65536,
       (vertexCountBefore demoQuadList 1 + 3) % 65536] :=
  ⟨by decide, C1_emitted_indices demoQuadList 1 (by decide)⟩

/-- Counterexample for C1 as stated: the quad with 16384 predecessors has a
running vertex count (baseIndex) of 65536, but its emitted indices are not
baseIndex + 0,1,2,0,2,3 because the uint16 conversion wrapped them. -/
theorem C1_counterexample :
    vertexCountBefore (List.replicate 16385 demoSpec) 16384 = 65536 ∧
    indexWindow (appendQuads freshQuads (List.replicate 16385 demoSpec)) 16384 ≠
      [65536, 65537, 65538, 65536, 65538, 65539] := by
  have hlen : (List.replicate 16385 demoSpec : List QuadSpec).length = 16385 := by
    rw [List.length_replicate]
  have hvb : vertexCountBefore (List.replicate 16385 demoSpec) 16384 = 4 * 16384 :=
    vertexCountBefore_eq _ 16384 (by rw [hlen]; omega)
  constructor
  · rw [hvb]
  · rw [indexWindow_eq _ 16384 (by rw [hlen]; omega)]
    decide

/-- C3 (amended): for every N with 1 ≤ N ≤ 16384, after N quads the maximum
index value present in the index stream equals 4N - 1, and every quad k's
six indices lie within [4k, 4k+3], so no quad references another quad's
vertices. (Beyond 16384 quads the uint16 index bases wrap mod 2^16 and the
maximum stays at 65535.) -/
theorem C3_max_and_ranges (qs : List QuadSpec) (h1 : 1 ≤ qs.length) (h2 : qs.length ≤ 16384) :
    (appendQuads freshQuads qs).QuadIndices.foldr max 0 = 4 * qs.length - 1 ∧
    ∀ k, k < qs.length → ∀ x ∈ indexWindow (appendQuads freshQuads qs) k,
      4 * k ≤ x ∧ x ≤ 4 * k + 3 := by
  obtain ⟨-, -, -, hi⟩ := batchShape_of_appends qs
  constructor
  · rw [hi, maxIdx_range qs.length h1 h2]
  · intro k hk x hx
    rw [indexWindow_eq qs k hk] at hx
    have hk16 : k < 16384 := by omega
    simp only [quadIndicesAt, List.mem_cons, List.not_mem_nil, or_false] at hx
    rcases hx with rfl | rfl | rfl | rfl | rfl | rfl <;> omega

/-- Witness for C3 at the concrete two-quad batch of load: max index 7. -/
theorem C3_witness :
    1 ≤ demoQuadList.length ∧ demoQuadList.length ≤ 16384 ∧
    (appendQuads freshQuads demoQuadList).QuadIndices.foldr max 0 =
      4 * demoQuadList.length - 1 :=
  ⟨by decide, by decide, (C3_max_and_ranges demoQuadList (by decide) (by decide)).1⟩

/-- Counterexample for C3 as stated (for every N ≥ 1): at N = 16385 the
maximum index present is 65535, not 4N - 1 = 65539, because the uint16
bases wrapped. -/
theorem C3_counterexample :
    (appendQuads freshQuads (List.replicate 16385 demoSpec)).QuadIndices.foldr max 0 ≠
      4 * (List.replicate 16385 demoSpec : List QuadSpec).length - 1 := by
  obtain ⟨-, -, -, hi⟩ := batchShape_of_appends (List.replicate 16385 demoSpec)
  have hlen : (List.replicate 16385 demoSpec : List QuadSpec).length = 16385 := by
    rw [List.length_replicate]
  rw [hi, hlen]
  rw [show (16385 : Nat) = 16384 + 1 from rfl, flatten_range_succ, foldr_max_append,
    maxIdx_range 16384 (by omega) (by omega)]
  have hq : (quadIndicesAt 16384).foldr max 0 = 3 := by decide
  rw [hq]
  omega

/-- C4: the packed-buffer layout of setupBuffers assigns offsets in
declaration order as the running total of prior streams' byte lengths with
no padding: positions at 0, texture coordinates at len(positions)*4, colors
at len(positions)*4 + len(texcoords)*1; the three byte ranges are pairwise
non-overlapping. -/
theorem C4_layout_offsets (q : ElementQuads) :
    let L := ContextFramebufferMultisample.setupBuffers q
    L.OffsetVertices = 0 ∧
    L.OffsetTexCoords = L.QuadVertices.length * bytesFloat32 ∧
    L.OffsetColors = L.QuadVertices.length * bytesFloat32 + L.QuadTexCoords.length * bytesUint8 ∧
    L.OffsetVertices + L.QuadVertices.length * bytesFloat32 ≤ L.OffsetTexCoords ∧
    L.OffsetTexCoords + L.QuadTexCoords.length * bytesUint8 ≤ L.OffsetColors ∧
    L.OffsetVertices + L.QuadVertices.length * bytesFloat32 ≤ L.OffsetColors := by
  intro L
  have h1 : L.OffsetVertices = 0 := rfl
  have h2 : L.OffsetTexCoords = q.QuadVertices.length * bytesFloat32 := by
    simp [L, ContextFramebufferMultisample.setupBuffers]
  have h3 : L.OffsetColors =
      q.QuadVertices.length * bytesFloat32 + q.QuadTexCoords.length * bytesUint8 := by
    simp [L, ContextFramebufferMultisample.setupBuffers]
  have hv : L.QuadVertices = q.QuadVertices := rfl
  have ht : L.QuadTexCoords = q.QuadTexCoords := rfl
  rw [hv, ht]
  refine ⟨h1, h2, h3, ?_, ?_, ?_⟩ <;> omega

/-- C5 (amended): appending a 2x2 quad at depth -1.2 followed by a 1x1 quad
at depth -1.1 to a fresh batch yields exactly 2 quads, 8 vertices, and 12
index entries (not 48), and the debug summary reports the text
Rectangles: 2. -/
theorem C5_load_counts :
    ContextFramebufferMultisample.load.QuadIndices.length / indicesPerQuad = 2 ∧
    ContextFramebufferMultisample.load.QuadVertices.length / vertexPositionSize = 8 ∧
    ContextFramebufferMultisample.load.QuadIndices.length = 12 ∧
    ContextFramebufferMultisample.load.DebugPrintRectLine = "Rectangles: 2" :=
  ⟨by decide, by rfl, by decide, by rfl⟩

/-- Counterexample for C5 as stated: the index stream of the two-quad
scenario holds 12 entries, not 48. -/
theorem C5_counterexample :
    ContextFramebufferMultisample.load.QuadIndices.length = 12 ∧
    ContextFramebufferMultisample.load.QuadIndices.length ≠ 48 :=
  ⟨by decide, by decide⟩

/-- C6 (amended): every offscreen attachment (color texture and
depth/stencil renderbuffer) is allocated with pixel dimensions
(W * trunc(sx), H * trunc(sy)) - the integer truncation is applied to the
scale factor before the multiplication, not to the product. Whenever the
scale factors are integral the two coincide, and the dimensions equal the
exact products (W*sx, H*sy) with floor truncation. -/
theorem C6_attachment_dims (sx sy : ℚ) (hx : ((⌊sx⌋ : ℤ) : ℚ) = sx)
    (hy : ((⌊sy⌋ : ℤ) : ℚ) = sy) :
    ContextFramebuffer.attachTextureDims sx sy =
      specAttachmentDims windowWidth windowHeight sx sy ∧
    ContextFramebufferMultisample.attachRenderbufferMultisampleDims sx sy =
      specAttachmentDims windowWidth windowHeight sx sy := by
  have hw : ⌊(windowWidth : ℚ) * sx⌋ = windowWidth * ⌊sx⌋ := by
    conv_lhs => rw [← hx, ← Int.cast_mul]
    exact Int.floor_intCast _
  have hh : ⌊(windowHeight : ℚ) * sy⌋ = windowHeight * ⌊sy⌋ := by
    conv_lhs => rw [← hy, ← Int.cast_mul]
    exact Int.floor_intCast _
  constructor <;>
    simp [ContextFramebuffer.attachTextureDims,
      ContextFramebufferMultisample.attachRenderbufferMultisampleDims,
      specAttachmentDims, int32OfScale, hw, hh]

/-- Witness for C6 at the integral scale pair (2, 2). -/
theorem C6_witness :
    ((⌊(2 : ℚ)⌋ : ℤ) : ℚ) = 2 ∧
    ContextFramebuffer.attachTextureDims 2 2 = specAttachmentDims windowWidth windowHeight 2 2 :=
  ⟨by simp, (C6_attachment_dims 2 2 (by simp) (by simp)).1⟩

/-- Counterexample for C6 as stated: at scale 3/2 the code allocates
600 x 400 while the exact floored products are 900 x 600. -/
theorem C6_counterexample :
    ContextFramebuffer.attachTextureDims (3/2) (3/2) = (600, 400) ∧
    specAttachmentDims windowWidth windowHeight (3/2) (3/2) = (900, 600) ∧
    ContextFramebuffer.attachTextureDims (3/2) (3/2) ≠
      specAttachmentDims windowWidth windowHeight (3/2) (3/2) := by
  refine ⟨?_, ?_, ?_⟩ <;>
    norm_num [ContextFramebuffer.attachTextureDims, specAttachmentDims, int32OfScale,
      windowWidth, windowHeight, Prod.ext_iff]

/-- C7 (amended): in the gles20 multisample pipeline every clear of the
offscreen target and of the screen target sets the clear-color alpha to 0;
in the gl32 pipelines (test21-framebuffer and
test21-framebuffer-multisample) the offscreen and screen clears set alpha
to 1 instead. -/
theorem C7_clear_alpha (fbo program : Nat) :
    clearAlphas (ContextFramebufferMultisample.bindCmds fbo program) = [0] ∧
    clearAlphas (ContextScreen.bindCmds program) = [0] ∧
    clearAlphas (bindProxyScreenCmds program fbo) = [1] ∧
    clearAlphas (unbindProxyScreenCmds program) = [1] ∧
    clearAlphas (Gl32ContextFramebuffer.bindCmds program fbo) = [1] ∧
    clearAlphas (Gl32ContextScreen.bindCmds program) = [1] :=
  ⟨rfl, rfl, rfl, rfl, rfl, rfl⟩

/-- Counterexample for C7 as stated: the offscreen clear of bindProxyScreen
(gl32 test21-framebuffer) sets alpha to 1, not 0. -/
theorem C7_counterexample :
    clearAlphas (bindProxyScreenCmds 0 0) = [1] ∧ (1 : ℚ) ≠ 0 :=
  ⟨rfl, by norm_num⟩

/-- C8: every frame of the multisample pipeline executes the fixed stage
order offscreen bind+draw, resolve bind+blit, screen bind+draw,
unconditionally (frame k's slice of the loop trace is always that list),
with exactly one blit per frame; the single-sample configurations execute
zero blit stages in any number of frames. -/
theorem C8_pipeline_stages (n k : Nat) (hk : k < n) :
    ((gameLoopTrace drawFrameTest20Multisample n).drop (6 * k)).take 6 =
      drawFrameTest20Multisample ∧
    drawFrameTest20Multisample =
      [GLStage.bindOffscreen, GLStage.drawOffscreen, GLStage.bindResolve, GLStage.blitResolve,
       GLStage.bindScreen, GLStage.drawScreen] ∧
    (gameLoopTrace drawFrameTest20Multisample n).count GLStage.blitResolve = n ∧
    (gameLoopTrace drawFrameTest21Framebuffer n).count GLStage.blitResolve = 0 ∧
    (gameLoopTrace drawFrameTest21FramebufferMultisample n).count GLStage.blitResolve = 0 := by
  refine ⟨?_, rfl, ?_, ?_, ?_⟩
  · unfold gameLoopTrace
    have hblocks : ∀ x ∈ List.replicate n drawFrameTest20Multisample, x.length = 6 := by
      intro x hx
      rw [List.eq_of_mem_replicate hx]
      rfl
    have hklen : k < (List.replicate n drawFrameTest20Multisample).length := by
      rw [List.length_replicate]
      exact hk
    rw [flatten_blocks_extract 6 _ k hblocks hklen]
    rw [List.getD_eq_getElem?_getD, List.getElem?_replicate]
    simp [hk]
  · rw [count_gameLoopTrace]
    have hc : drawFrameTest20Multisample.count GLStage.blitResolve = 1 := rfl
    rw [hc]
    omega
  · rw [count_gameLoopTrace]
    have hc : drawFrameTest21Framebuffer.count GLStage.blitResolve = 0 := rfl
    rw [hc]
    omega
  · rw [count_gameLoopTrace]
    have hc : drawFrameTest21FramebufferMultisample.count GLStage.blitResolve = 0 := rfl
    rw [hc]
    omega

/-- Witness for C8 at a two-frame loop, frame index 1. -/
theorem C8_witness :
    1 < 2 ∧ (gameLoopTrace drawFrameTest20Multisample 2).count GLStage.blitResolve = 2 :=
  ⟨by decide, (C8_pipeline_stages 2 1 (by decide)).2.2.1⟩

/-- C9 (amended): the per-frame draw of the multisample context leaves the
position, texture-coordinate, and index streams and the whole packed
layout (all offsets and the total byte size) unchanged, but it rewrites the
color stream every frame with freshly randomized quad colors of the same
shape (16 scalars per quad present in the batch). -/
theorem C9_draw_mutation (q : ElementQuads) (rand : Nat → Nat × Nat × Nat) :
    (q.drawColorPass rand).QuadVertices = q.QuadVertices ∧
    (q.drawColorPass rand).QuadTexCoords = q.QuadTexCoords ∧
    (q.drawColorPass rand).QuadIndices = q.QuadIndices ∧
    (q.drawColorPass rand).OffsetVertices = q.OffsetVertices ∧
    (q.drawColorPass rand).OffsetTexCoords = q.OffsetTexCoords ∧
    (q.drawColorPass rand).OffsetColors = q.OffsetColors ∧
    (q.drawColorPass rand).OffsetIndices = q.OffsetIndices ∧
    (q.drawColorPass rand).BytesTotal = q.BytesTotal ∧
    (q.drawColorPass rand).QuadColors.length = 16 * (q.QuadIndices.length / indicesPerQuad) := by
  refine ⟨rfl, rfl, rfl, rfl, rfl, rfl, rfl, rfl, ?_⟩
  have hlen := foldl_append_blocks_length
    (fun i => makeQuadColors (RandomColorInRGBA (rand i).1 (rand i).2.1 (rand i).2.2)) 16
    (fun i => rfl) (q.QuadIndices.length / indicesPerQuad) []
  simpa [ElementQuads.drawColorPass] using hlen

/-- Counterexample for C9 as stated: one frame's draw on the batch built by
load, with the concrete random oracle, changes the accumulated color
stream. -/
theorem C9_counterexample :
    (ContextFramebufferMultisample.load.drawColorPass constRandOracle).QuadColors ≠
      ContextFramebufferMultisample.load.QuadColors := by
  decide

/-- C10: when makeQuadIndices is invoked while the position stream holds
fewer than 12 scalars, the computed rectangle count is 0 and the base
index (rectangleCount - 1) * 4 wraps mod 2^16 under the uint16 conversion,
producing indices starting at 65532 rather than signaling an error. -/
theorem C10_underflow_wrap (len : Nat) (h : len < 12) :
    len / (verticesPerQuad * vertexPositionSize) = 0 ∧
    makeQuadIndices len = [65532, 65533, 65534, 65532, 65534, 65535] := by
  have h0 : len / (verticesPerQuad * vertexPositionSize) = 0 := by
    simp only [verticesPerQuad, vertexPositionSize]
    omega
  refine ⟨h0, ?_⟩
  simp only [makeQuadIndices, h0]
  decide

/-- Witness for C10 at the empty position stream. -/
theorem C10_witness :
    (0 : Nat) < 12 ∧ makeQuadIndices 0 = [65532, 65533, 65534, 65532, 65534, 65535] :=
  ⟨by decide, (C10_underflow_wrap 0 (by decide)).2⟩
